import Mathlib

/-!
Verification of `playlist_gen.py` (YT-PlaylistGen).

The Python source is shallowly embedded: Python strings become `List Char`,
regular-expression searching over the two concrete patterns of
`extract_video_id` becomes an explicit left-to-right scan, and the
side-effecting parts (file system, OAuth library, HTTP requests) become
explicit environments recording what the outside world would answer and
traces recording which external calls the script performs.
-/

namespace PlaylistGen

/-! ## Link parser (`extract_video_id`, src lines 97-110) -/

/-- The regex character class `[a-zA-Z0-9_-]` used for video identifiers. -/
def isIdChar (c : Char) : Bool :=
  c.isAlpha || c.isDigit || c = '_' || c = '-'

/-- Match a literal character sequence at the head of `s`; on success return
the remainder of `s`. -/
def matchLit : List Char → List Char → Option (List Char)
  | [], s => some s
  | _ :: _, [] => none
  | l :: ls, c :: cs => if c = l then matchLit ls cs else none

/-- Take exactly `n` identifier-class characters from the front of `s`
(the regex `[a-zA-Z0-9_-]{n}`). -/
def takeId : Nat → List Char → Option (List Char)
  | 0, _ => some []
  | _ + 1, [] => none
  | n + 1, c :: cs => if isIdChar c then (takeId n cs).map (c :: ·) else none

/-- Try each literal alternative of the pattern, in order, at the current
position; a successful alternative must be followed by 11 identifier
characters, which are the captured group; if they are not, the next
alternative is tried at the same position, as the regex engine does. -/
def matchAt (lits : List (List Char)) (s : List Char) : Option (List Char) :=
  match lits with
  | [] => none
  | l :: ls =>
    match matchLit l s with
    | some rest => (takeId 11 rest).elim (matchAt ls s) some
    | none => matchAt ls s

/-- `re.search`: scan positions left to right and return the first capture. -/
def reSearch (lits : List (List Char)) : List Char → Option (List Char)
  | [] => none
  | c :: cs => (matchAt lits (c :: cs)).elim (reSearch lits cs) some

/-- Alternatives of the first regex of `extract_video_id` (src line 103):
the group `(?:v=|youtu\.be\/|embed\/|v\/|watch\?v=|\/videos\/)` before
`([a-zA-Z0-9_-]{11})`. -/
def pattern1 : List (List Char) :=
  ["v=".data, "youtu.be/".data, "embed/".data, "v/".data,
   "watch?v=".data, "/videos/".data]

/-- Alternatives of the second regex of `extract_video_id` (src line 107):
`shorts\/` before `([a-zA-Z0-9_-]{11})`. -/
def pattern2 : List (List Char) :=
  ["shorts/".data]

/-- `extract_video_id` (src lines 97-110): first regex, then the Shorts
regex, returning the first captured group, or `none`. -/
def extract_video_id (url : List Char) : Option (List Char) :=
  (reSearch pattern1 url).elim (reSearch pattern2 url) some

/-! ## Reading the link file (`main`, src lines 186-198) -/

/-- Whitespace characters removed by Python `str.strip()` (ASCII range). -/
def isPySpace (c : Char) : Bool :=
  c = ' ' || c = '\t' || c = '\n' || c = '\r' || c = '\x0b' || c = '\x0c'

/-- Python `line.strip()`: drop leading and trailing whitespace. -/
def strip (l : List Char) : List Char :=
  ((l.dropWhile isPySpace).reverse.dropWhile isPySpace).reverse

/-- The file-reading loop of `main` (src lines 186-194): per line, strip it,
skip blank lines, collect extracted identifiers, and count the
skip-warnings printed for non-blank lines with no extractable identifier.
Returns (collected identifiers, number of skip-warnings). -/
def readPhase : List (List Char) → List (List Char) × Nat
  | [] => ([], 0)
  | line :: rest =>
    let url := strip line
    if url.isEmpty then readPhase rest
    else
      match extract_video_id url with
      | some vid =>
        let r := readPhase rest
        (vid :: r.1, r.2)
      | none =>
        let r := readPhase rest
        (r.1, r.2 + 1)

/-- A line that contributes a video identifier: non-blank after stripping
and parsed by `extract_video_id`. -/
def validLine (line : List Char) : Bool :=
  !(strip line).isEmpty && (extract_video_id (strip line)).isSome

/-- A non-blank line that fails to parse, producing a skip-warning. -/
def skippedLine (line : List Char) : Bool :=
  !(strip line).isEmpty && (extract_video_id (strip line)).isNone

/-- The identifier a line contributes, if any. -/
def parsedLine (line : List Char) : Option (List Char) :=
  if (strip line).isEmpty then none else extract_video_id (strip line)

/-! ## Playlist client -/

/-- Outcome of the remote create-playlist request: the successful response
carries the new playlist id; `httpError` is a raised `HttpError` with
`e.resp.status` and decoded `e.content`; `otherError` is any other
exception. -/
inductive CreateResult
  | ok (playlistId : List Char)
  | httpError (status : Nat) (body : List Char)
  | otherError
deriving DecidableEq

/-- `create_playlist` (src lines 112-140): on success return the id from the
response; on `HttpError` print the status and body and return `None`; on any
other exception return `None`. The second component models the printed
`ApiError` report (status, body) in the `HttpError` case. -/
def create_playlist : CreateResult → Option (List Char) × Option (Nat × List Char)
  | .ok pid => (some pid, none)
  | .httpError status body => (none, some (status, body))
  | .otherError => (none, none)

/-- Outcome of one remote playlist-item insertion: success, a raised
`HttpError` with status and decoded content, or any other exception. -/
inductive InsertOutcome
  | success
  | httpErr (status : Nat) (content : List Char)
  | otherErr
deriving DecidableEq

/-- The four ways `add_video_to_playlist` reports an attempt, matching its
four print statements. -/
inductive AddClass
  | added
  | notFound
  | duplicate
  | apiError
  | unexpected
deriving DecidableEq

/-- Python `pat in s` substring test. -/
def containsSub (pat : List Char) : List Char → Bool
  | [] => pat.isEmpty
  | c :: cs => (matchLit pat (c :: cs)).isSome || containsSub pat cs

/-- `add_video_to_playlist` (src lines 142-174): returns `True` only when
the insert succeeded; a 404 is reported as not-found, a 400 whose decoded
content lowercased contains "duplicate" as duplicate, any other `HttpError`
as an HTTP error, any other exception as unexpected. -/
def add_video_to_playlist : InsertOutcome → Bool × AddClass
  | .success => (true, .added)
  | .httpErr status content =>
    if status == 404 then (false, .notFound)
    else if status == 400 && containsSub "duplicate".data (content.map Char.toLower) then
      (false, .duplicate)
    else (false, .apiError)
  | .otherErr => (false, .unexpected)

/-! ## Authenticator (`get_authenticated_service`, src lines 41-95) -/

/-- The observable attributes of a `google.oauth2.credentials.Credentials`
object that the script's control flow reads: `credentials.valid`,
`credentials.expired`, and the truthiness of `credentials.refresh_token`. -/
structure Creds where
  valid : Bool
  expired : Bool
  refresh_token : Bool
deriving DecidableEq

/-- What the world answers when the script looks for the credentials file
(src lines 52-57): the file is absent, the file exists but
`Credentials.from_authorized_user_file` raises, or it loads a record. -/
inductive LoadOutcome
  | fileAbsent
  | malformed
  | goodFile (c : Creds)
deriving DecidableEq

/-- Src lines 49-57: `credentials = None`; if the file exists, try to load
it, printing an error message and keeping `None` when loading raises.
Returns (the credentials object, whether the load-error message was
printed). -/
def loadPhase : LoadOutcome → Option Creds × Bool
  | .fileAbsent => (none, false)
  | .malformed => (none, true)
  | .goodFile c => (some c, false)

/-- Environment for one run of `get_authenticated_service`: what loading
finds, what `credentials.refresh` would leave behind (`none` = it raises),
whether `client_secrets.json` exists, and what `flow.run_local_server`
would return (`none` = it raises). -/
structure AuthEnv where
  loadOutcome : LoadOutcome
  refreshResult : Option Creds
  clientSecretsExists : Bool
  flowResult : Option Creds
deriving DecidableEq

/-- How `get_authenticated_service` ends: a service built over credentials,
the instructive client-secrets-missing early return (src lines 72-76), or
the failed-flow early return (src lines 83-88). The latter two are both
`return None` in the source, distinguished by their printed messages. -/
inductive AuthOutcome
  | ok (c : Creds)
  | configMissing
  | flowAborted
deriving DecidableEq

/-- External calls the script makes, in order. -/
inductive Event
  | refreshAttempt
  | flowRun
  | saveCreds
  | authCall
  | createCall
  | insertCall (videoId : List Char)
deriving DecidableEq

/-- Python truthiness of `credentials and credentials.valid`. -/
def truthyValid : Option Creds → Bool
  | none => false
  | some c => c.valid

/-- Src lines 61-67: inside the not-valid branch, if there is a credentials
object that is expired and has a refresh token, attempt a silent refresh;
a raised refresh leaves `credentials = None`. -/
def refreshStep (env : AuthEnv) (credentials : Option Creds) :
    Option Creds × List Event :=
  match credentials with
  | some c =>
    if c.expired && c.refresh_token then
      match env.refreshResult with
      | some c2 => (some c2, [Event.refreshAttempt])
      | none => (none, [Event.refreshAttempt])
    else (some c, [])
  | none => (none, [])

/-- Src lines 69-88: the interactive flow. If `client_secrets.json` is
absent, print the instructive message and return (`configMissing`); if the
flow raises, return (`flowAborted`); otherwise the flow's credentials are
saved (src lines 90-93) and the service is built. -/
def runFlow (env : AuthEnv) (evs : List Event) : AuthOutcome × List Event :=
  if env.clientSecretsExists then
    match env.flowResult with
    | some c => (.ok c, evs ++ [Event.flowRun, Event.saveCreds])
    | none => (.flowAborted, evs ++ [Event.flowRun])
  else (.configMissing, evs)

/-- Src lines 69-93: after the refresh step, run the interactive flow
unless the (possibly refreshed) credentials are now valid; any credentials
that reach the end of the outer branch are saved. -/
def finishAuth (env : AuthEnv) (credentials : Option Creds) (evs : List Event) :
    AuthOutcome × List Event :=
  match credentials with
  | some c =>
    if c.valid then (.ok c, evs ++ [Event.saveCreds])
    else runFlow env evs
  | none => runFlow env evs

/-- `get_authenticated_service` (src lines 41-95): load, short-circuit on a
valid credential, otherwise refresh-then-flow, saving on success. -/
def get_authenticated_service (env : AuthEnv) : AuthOutcome × List Event :=
  match (loadPhase env.loadOutcome).1 with
  | some c =>
    if c.valid then (.ok c, [])
    else
      let r := refreshStep env (some c)
      finishAuth env r.1 r.2
  | none => finishAuth env none []

/-- The loaded credentials object visible to `get_authenticated_service`. -/
def loadedCreds (o : LoadOutcome) : Option Creds := (loadPhase o).1

/-- No usable credential: nothing was loaded, or the loaded record is
invalid and not (expired with a refresh token). -/
def noUsableCred (o : LoadOutcome) : Bool :=
  match loadedCreds o with
  | none => true
  | some c => !c.valid && !(c.expired && c.refresh_token)

/-- A loaded, invalid, expired credential carrying a refresh token. -/
def refreshableCred (o : LoadOutcome) : Bool :=
  match loadedCreds o with
  | none => false
  | some c => !c.valid && (c.expired && c.refresh_token)

/-! ## Orchestrator (`main`, src lines 178-222) -/

/-- How `main` returns: each early `return` of the source, or the final
report with the count of added videos, the total attempted, and the
playlist id. -/
inductive MainResult
  | missingFile
  | noInput
  | authFailed
  | createFailed
  | finished (added : Nat) (total : Nat) (playlistId : List Char)
deriving DecidableEq

/-- Environment for one run of `main`: whether `yt_links.txt` exists, its
lines, the authentication environment, the create-playlist response, and
the response to the i-th item insertion. -/
structure Env where
  linksFileExists : Bool
  fileLines : List (List Char)
  auth : AuthEnv
  createResult : CreateResult
  addOutcomes : Nat → InsertOutcome

/-- The add-videos loop of `main` (src lines 216-219): every identifier is
attempted in order; the count increments exactly when
`add_video_to_playlist` returns `True`. -/
def addLoop (outs : Nat → InsertOutcome) : List (List Char) → Nat → Nat × List Event
  | [], _ => (0, [])
  | v :: rest, i =>
    let ok := (add_video_to_playlist (outs i)).1
    let r := addLoop outs rest (i + 1)
    ((if ok then 1 else 0) + r.1, Event.insertCall v :: r.2)

/-- `main` (src lines 178-222): missing file check, read phase, empty-input
check, authenticate, create playlist, add loop, in that order, with each
failure an early return. The event list records the external calls made. -/
def main (env : Env) : MainResult × List Event :=
  if env.linksFileExists then
    let video_ids := (readPhase env.fileLines).1
    if video_ids.isEmpty then (.noInput, [])
    else
      match get_authenticated_service env.auth with
      | (AuthOutcome.ok _, aevs) =>
        let cr := create_playlist env.createResult
        match cr.1 with
        | some pid =>
          let r := addLoop env.addOutcomes video_ids 0
          (.finished r.1 video_ids.length pid,
            (Event.authCall :: aevs) ++ [Event.createCall] ++ r.2)
        | none => (.createFailed, (Event.authCall :: aevs) ++ [Event.createCall])
      | (_, aevs) => (.authFailed, Event.authCall :: aevs)
  else (.missingFile, [])

/-! ## Credential store round trip -/

/-- Modelled from the spec: the serialized token record of §6 — "Credential
file: JSON record of \x7baccess token, refresh token, expiry, scopes\x7d" —
as written by `credentials.to_json()` (src line 92) and read back by
`Credentials.from_authorized_user_file` (src line 54); both live in the
external Google libraries, not in this repository. -/
structure StoredCredential where
  token : List Char
  refresh_token : Option (List Char)
  expiry : Option Nat
  scopes : List (List Char)
deriving DecidableEq

/-- A JSON-like value, the shape of the serialized credential file. -/
inductive JVal
  | jstr (s : List Char)
  | jnum (n : Nat)
  | jnull
  | jarr (xs : List JVal)
  | jobj (fields : List (List Char × JVal))

/-- First value bound to a key in a JSON object. -/
def jlookup (k : List Char) : List (List Char × JVal) → Option JVal
  | [] => none
  | (k', v) :: rest => if k' = k then some v else jlookup k rest

/-- Decode a list of JSON strings. -/
def strVals : List JVal → Option (List (List Char))
  | [] => some []
  | JVal.jstr s :: rest => (strVals rest).map (s :: ·)
  | _ => none

/-- Modelled from the spec: `save(record)` of the Credential Store (§4.2)
serializes the token record — the library's `to_json`. -/
def credToJson (c : StoredCredential) : JVal :=
  .jobj [("token".data, .jstr c.token),
         ("refresh_token".data, (c.refresh_token.map JVal.jstr).getD .jnull),
         ("expiry".data, (c.expiry.map JVal.jnum).getD .jnull),
         ("scopes".data, .jarr (c.scopes.map JVal.jstr))]

/-- Modelled from the spec: `load()` of the Credential Store (§4.2) reads
the record back, returning `none` on a malformed file — the library's
`from_authorized_user_file`. -/
def credFromJson : JVal → Option StoredCredential
  | .jobj fields =>
    match jlookup "token".data fields with
    | some (.jstr t) =>
      let rt : Option (List Char) :=
        match jlookup "refresh_token".data fields with
        | some (.jstr r) => some r
        | _ => none
      let ex : Option Nat :=
        match jlookup "expiry".data fields with
        | some (.jnum n) => some n
        | _ => none
      match jlookup "scopes".data fields with
      | some (.jarr xs) => (strVals xs).map (fun ss => ⟨t, rt, ex, ss⟩)
      | _ => none
    | _ => none
  | _ => none

/-- The OAuth scope requested by the script (src line 25). -/
def SCOPES : List (List Char) :=
  ["https://www.googleapis.com/auth/youtube.force-ssl".data]

/-- Modelled from the spec: `isValid(record)` of the Credential Store
(§4.2), "true if unexpired and scope-compatible", under clock `now`. -/
def isValidCred (c : StoredCredential) (now : Nat) : Bool :=
  (match c.expiry with
   | none => true
   | some t => now < t)
  && SCOPES.all (fun s => c.scopes.contains s)

end PlaylistGen

namespace PlaylistGen

/-! ## Helper lemmas about the regex scan -/

lemma matchLit_eq_append {l s r : List Char} (h : matchLit l s = some r) :
    s = l ++ r := by
  induction l generalizing s with
  | nil =>
    simp only [matchLit, Option.some.injEq] at h
    simp [h]
  | cons a as ih =>
    cases s with
    | nil => simp [matchLit] at h
    | cons c cs =>
      simp only [matchLit] at h
      split at h
      · next hc => simp [hc, ih h]
      · exact absurd h (by simp)

lemma takeId_some {n : Nat} {l t : List Char} (h : takeId n l = some t) :
    t.length = n ∧ t.all isIdChar = true ∧ ∃ r, l = t ++ r := by
  induction n generalizing l t with
  | zero =>
    simp only [takeId, Option.some.injEq] at h
    subst h
    exact ⟨rfl, rfl, l, rfl⟩
  | succ n ih =>
    cases l with
    | nil => simp [takeId] at h
    | cons c cs =>
      simp only [takeId] at h
      split at h
      · next hc =>
        obtain ⟨t', ht', rfl⟩ := Option.map_eq_some'.mp h
        obtain ⟨hlen, hall, r, hr⟩ := ih ht'
        refine ⟨by simp [hlen], by simp [hc, hall], r, by simp [hr]⟩
      · exact absurd h (by simp)

lemma matchAt_none_of_noLit {lits : List (List Char)} {s : List Char}
    (h : ∀ l ∈ lits, ∀ r, matchLit l s = some r → False) :
    matchAt lits s = none := by
  induction lits with
  | nil => rfl
  | cons l ls ih =>
    have e : matchAt (l :: ls) s
        = match matchLit l s with
          | some rest => (takeId 11 rest).elim (matchAt ls s) some
          | none => matchAt ls s := rfl
    rw [e]
    cases hm : matchLit l s with
    | some rest => exact absurd hm (fun hm => h l (by simp) rest hm)
    | none => exact ih (fun l' hl' r hm => h l' (by simp [hl']) r hm)

lemma matchAt_none_of_allId {lits : List (List Char)} {s : List Char}
    (hl : ∀ l ∈ lits, l.all isIdChar = false)
    (hs : s.all isIdChar = true) : matchAt lits s = none := by
  refine matchAt_none_of_noLit (fun l hlmem r hm => ?_)
  have hsplit := matchLit_eq_append hm
  rw [hsplit, List.all_append] at hs
  have := hl l hlmem
  simp [this] at hs

lemma reSearch_eq_none {lits : List (List Char)} {s : List Char}
    (h : ∀ i < s.length, matchAt lits (s.drop i) = none) :
    reSearch lits s = none := by
  induction s with
  | nil => rfl
  | cons c cs ih =>
    have h0 : matchAt lits (c :: cs) = none := h 0 (by simp)
    have e : reSearch lits (c :: cs)
        = (matchAt lits (c :: cs)).elim (reSearch lits cs) some := rfl
    rw [e, h0]
    exact ih (fun i hi => h (i + 1) (by simpa using hi))

lemma matchAt_slash_id {id : List Char} (hall : id.all isIdChar = true) :
    matchAt pattern1 ('/' :: id) = none := by
  refine matchAt_none_of_noLit (fun l hlmem r hm => ?_)
  fin_cases hlmem
  · simp [matchLit] at hm
  · simp [matchLit] at hm
  · simp [matchLit] at hm
  · simp [matchLit] at hm
  · simp [matchLit] at hm
  · have hid : id = 'v' :: 'i' :: 'd' :: 'e' :: 'o' :: 's' :: '/' :: r := by
      have := matchLit_eq_append hm
      simpa using this
    have hmem : isIdChar '/' = true :=
      List.all_eq_true.mp hall '/' (by rw [hid]; simp)
    exact absurd hmem (by decide)

lemma shorts_p1_none {id : List Char} (hall : id.all isIdChar = true) :
    reSearch pattern1 ("https://www.youtube.com/shorts/".data ++ id) = none := by
  refine reSearch_eq_none (fun i hi => ?_)
  by_cases h31 : i < 31
  · interval_cases i <;> first
      | rfl
      | exact matchAt_slash_id hall
  · obtain ⟨j, rfl⟩ : ∃ j, i = 31 + j := ⟨i - 31, by omega⟩
    have e : ("https://www.youtube.com/shorts/".data ++ id).drop (31 + j)
        = id.drop j := by
      have := @List.drop_append Char "https://www.youtube.com/shorts/".data id j
      simpa using this
    rw [e]
    refine matchAt_none_of_allId (by decide) ?_
    exact List.all_eq_true.mpr
      (fun c hc => List.all_eq_true.mp hall c (List.mem_of_mem_drop hc))

/-- C1: for every 11-character identifier (over the regex class
`[a-zA-Z0-9_-]`), `extract_video_id` returns exactly that identifier for
each supported URL shape — standard watch, short-link youtu.be, embed, and
shorts — and for every URL at which none of the recognized patterns
matches at any position, it returns `none`. -/
theorem c1_extract_video_id (id : List Char) (hid : takeId 11 id = some id)
    (s : List Char)
    (hs : ∀ i < s.length, matchAt pattern1 (s.drop i) = none
            ∧ matchAt pattern2 (s.drop i) = none) :
    extract_video_id ("https://www.youtube.com/watch?v=".data ++ id) = some id
  ∧ extract_video_id ("https://youtu.be/".data ++ id) = some id
  ∧ extract_video_id ("https://www.youtube.com/embed/".data ++ id) = some id
  ∧ extract_video_id ("https://www.youtube.com/shorts/".data ++ id) = some id
  ∧ extract_video_id s = none := by
  obtain ⟨-, hall, -⟩ := takeId_some hid
  refine ⟨?_, ?_, ?_, ?_, ?_⟩
  · have e : reSearch pattern1 ("https://www.youtube.com/watch?v=".data ++ id)
        = ((takeId 11 id).elim none some).elim
            (reSearch pattern1 ("atch?v=".data ++ id)) some := rfl
    unfold extract_video_id
    rw [e, hid]
    rfl
  · have e : reSearch pattern1 ("https://youtu.be/".data ++ id)
        = ((takeId 11 id).elim none some).elim
            (reSearch pattern1 ("outu.be/".data ++ id)) some := rfl
    unfold extract_video_id
    rw [e, hid]
    rfl
  · have e : reSearch pattern1 ("https://www.youtube.com/embed/".data ++ id)
        = ((takeId 11 id).elim none some).elim
            (reSearch pattern1 ("mbed/".data ++ id)) some := rfl
    unfold extract_video_id
    rw [e, hid]
    rfl
  · have e : reSearch pattern2 ("https://www.youtube.com/shorts/".data ++ id)
        = ((takeId 11 id).elim none some).elim
            (reSearch pattern2 ("horts/".data ++ id)) some := rfl
    unfold extract_video_id
    rw [shorts_p1_none hall, e, hid]
    rfl
  · have h1 : reSearch pattern1 s = none :=
      reSearch_eq_none (fun i hi => (hs i hi).1)
    have h2 : reSearch pattern2 s = none :=
      reSearch_eq_none (fun i hi => (hs i hi).2)
    unfold extract_video_id
    rw [h1, h2]
    rfl

/-- Witness for C1 at `dQw4w9WgXcQ` and the malformed URL `not-a-url`. -/
theorem c1_extract_video_id_witness :
    extract_video_id ("https://www.youtube.com/watch?v=".data ++ "dQw4w9WgXcQ".data)
      = some "dQw4w9WgXcQ".data
  ∧ extract_video_id ("https://www.youtube.com/shorts/".data ++ "dQw4w9WgXcQ".data)
      = some "dQw4w9WgXcQ".data
  ∧ extract_video_id "not-a-url".data = none := by
  have h1 : takeId 11 "dQw4w9WgXcQ".data = some "dQw4w9WgXcQ".data := by decide
  have h2 : ∀ i < ("not-a-url".data).length,
      matchAt pattern1 ("not-a-url".data.drop i) = none
      ∧ matchAt pattern2 ("not-a-url".data.drop i) = none := by decide
  have h := c1_extract_video_id "dQw4w9WgXcQ".data h1 "not-a-url".data h2
  exact ⟨h.1, h.2.2.2.1, h.2.2.2.2⟩

end PlaylistGen

namespace PlaylistGen

/-! ## The read phase (C2) -/

lemma readPhase_spec (lines : List (List Char)) :
    (readPhase lines).1 = lines.filterMap parsedLine
  ∧ (readPhase lines).1.length = (lines.filter validLine).length
  ∧ (readPhase lines).2 = (lines.filter skippedLine).length := by
  induction lines with
  | nil => exact ⟨rfl, rfl, rfl⟩
  | cons line rest ih =>
    have ih21 := ih.2.1
    rw [ih.1] at ih21
    by_cases hb : (strip line).isEmpty
    · simp [readPhase, hb, parsedLine, validLine, skippedLine,
        List.filterMap_cons, List.filter_cons, ih.1, ih21, ih.2.2]
    · cases hx : extract_video_id (strip line) with
      | some vid =>
        simp [readPhase, hb, hx, parsedLine, validLine, skippedLine,
          List.filterMap_cons, List.filter_cons, ih.1, ih21, ih.2.2]
      | none =>
        simp [readPhase, hb, hx, parsedLine, validLine, skippedLine,
          List.filterMap_cons, List.filter_cons, ih.1, ih21, ih.2.2]

end PlaylistGen

namespace PlaylistGen

/-- C2: the file-reading phase collects exactly the identifiers of the
lines that parse (one per valid line, in order) and emits exactly one
skip-warning per non-blank unparsable line; blank lines contribute to
neither count. On the spec's example input it yields exactly
`dQw4w9WgXcQ` and `abc12345678` with one skip-warning. -/
theorem c2_read_phase_counts (lines : List (List Char)) :
    (readPhase lines).1 = lines.filterMap parsedLine
  ∧ (readPhase lines).1.length = (lines.filter validLine).length
  ∧ (readPhase lines).2 = (lines.filter skippedLine).length
  ∧ readPhase ["https://youtu.be/dQw4w9WgXcQ".data, "not-a-url".data,
      "https://www.youtube.com/shorts/abc12345678".data]
    = (["dQw4w9WgXcQ".data, "abc12345678".data], 1) :=
  ⟨(readPhase_spec lines).1, (readPhase_spec lines).2.1,
   (readPhase_spec lines).2.2, by decide⟩

/-! ## The add-videos loop (C3) -/

lemma addLoop_trace (outs : Nat → InsertOutcome) (ids : List (List Char))
    (k : Nat) : (addLoop outs ids k).2 = ids.map Event.insertCall := by
  induction ids generalizing k with
  | nil => rfl
  | cons v rest ih => simp [addLoop, ih (k + 1)]

lemma addLoop_count (outs : Nat → InsertOutcome) (ids : List (List Char))
    (k : Nat) :
    (addLoop outs ids k).1
      = ((List.range ids.length).filter
          (fun i => (add_video_to_playlist (outs (k + i))).1)).length := by
  induction ids generalizing k with
  | nil => rfl
  | cons v rest ih =>
    have harg : ∀ i : Nat, k + (i + 1) = (k + 1) + i := fun i => by omega
    have hcomp : ((fun i => (add_video_to_playlist (outs (k + i))).1) ∘ Nat.succ)
        = fun i => (add_video_to_playlist (outs ((k + 1) + i))).1 := by
      funext i
      simp only [Function.comp_apply]
      rw [harg i]
    simp only [addLoop, List.length_cons, List.range_succ_eq_map,
      List.filter_cons, List.filter_map, Nat.add_zero, hcomp]
    cases hok : (add_video_to_playlist (outs k)).1 <;>
      simp [hok, List.length_map, ih (k + 1), Nat.add_comm]

/-- C3: the add loop attempts every identifier in order no matter which
insertions fail — the insert-call trace is exactly the identifier list —
and the final count equals exactly the number of positions whose insertion
returned `True`, which happens exactly for the genuinely successful
outcome (`Duplicate`, `NotFound`, and every other failure contribute 0). -/
theorem c3_failures_do_not_halt (ids : List (List Char))
    (outs : Nat → InsertOutcome) :
    (addLoop outs ids 0).2 = ids.map Event.insertCall
  ∧ (addLoop outs ids 0).1
      = ((List.range ids.length).filter
          (fun i => (add_video_to_playlist (outs i)).1)).length
  ∧ (∀ o : InsertOutcome,
      (add_video_to_playlist o).1 = true ↔ o = InsertOutcome.success) := by
  refine ⟨addLoop_trace outs ids 0, ?_, ?_⟩
  · have h := addLoop_count outs ids 0
    simpa using h
  · intro o
    cases o with
    | success => simp [add_video_to_playlist]
    | httpErr status content =>
      simp only [add_video_to_playlist]
      split
      · simp
      · split <;> simp
    | otherErr => simp [add_video_to_playlist]

end PlaylistGen

namespace PlaylistGen

/-! ## Early aborts of `main` (C4, C10) and fatal playlist creation (C5) -/

/-- C4: when the links file exists but yields zero valid identifiers, the
run ends at the no-input abort with an empty call trace: authentication is
never invoked, no playlist is created, and no insertion is attempted. -/
theorem c4_no_input_aborts_before_network (env : Env)
    (h1 : env.linksFileExists = true)
    (h2 : (readPhase env.fileLines).1 = []) :
    main env = (MainResult.noInput, []) := by
  simp [main, h1, h2]

/-- Witness for C4 on a one-line file whose line does not parse. -/
theorem c4_no_input_aborts_before_network_witness :
    main ⟨true, ["not-a-url".data],
      ⟨LoadOutcome.fileAbsent, none, false, none⟩,
      CreateResult.otherError, fun _ => InsertOutcome.otherErr⟩
    = (MainResult.noInput, []) :=
  c4_no_input_aborts_before_network _ rfl (by decide)

/-- C10: when the links file does not exist, `main` returns at once with an
empty call trace — before authentication, playlist creation or insertion —
through an early-exit path distinct from the no-input abort. -/
theorem c10_missing_links_file (env : Env)
    (h : env.linksFileExists = false) :
    main env = (MainResult.missingFile, [])
  ∧ MainResult.missingFile ≠ MainResult.noInput :=
  ⟨by simp [main, h], by decide⟩

/-- Witness for C10. -/
theorem c10_missing_links_file_witness :
    main ⟨false, [],
      ⟨LoadOutcome.fileAbsent, none, false, none⟩,
      CreateResult.otherError, fun _ => InsertOutcome.otherErr⟩
    = (MainResult.missingFile, []) :=
  (c10_missing_links_file _ rfl).1

lemma gas_trace_cases (aenv : AuthEnv) :
    (get_authenticated_service aenv).2 = []
  ∨ (get_authenticated_service aenv).2 = [Event.saveCreds]
  ∨ (get_authenticated_service aenv).2 = [Event.flowRun]
  ∨ (get_authenticated_service aenv).2 = [Event.flowRun, Event.saveCreds]
  ∨ (get_authenticated_service aenv).2 = [Event.refreshAttempt]
  ∨ (get_authenticated_service aenv).2 = [Event.refreshAttempt, Event.saveCreds]
  ∨ (get_authenticated_service aenv).2 = [Event.refreshAttempt, Event.flowRun]
  ∨ (get_authenticated_service aenv).2
      = [Event.refreshAttempt, Event.flowRun, Event.saveCreds] := by
  obtain ⟨lo, rr, cse, fr⟩ := aenv
  cases lo with
  | fileAbsent =>
    cases cse <;> cases fr <;>
      simp [get_authenticated_service, loadPhase, finishAuth, runFlow]
  | malformed =>
    cases cse <;> cases fr <;>
      simp [get_authenticated_service, loadPhase, finishAuth, runFlow]
  | goodFile c =>
    obtain ⟨v, ex, rt⟩ := c
    cases v
    · cases ex <;> cases rt <;> cases cse <;> cases fr <;>
        rcases rr with _ | ⟨⟨v2, e2, t2⟩⟩ <;> (try cases v2) <;>
        simp [get_authenticated_service, loadPhase, refreshStep, finishAuth,
          runFlow]
    · simp [get_authenticated_service, loadPhase]

lemma gas_no_insert (aenv : AuthEnv) (v : List Char) :
    Event.insertCall v ∉ (get_authenticated_service aenv).2 := by
  rcases gas_trace_cases aenv with h | h | h | h | h | h | h | h <;> simp [h]

end PlaylistGen

namespace PlaylistGen

lemma main_cases_of_createFailure {env : Env}
    (h : (create_playlist env.createResult).1 = none) :
    main env = (MainResult.missingFile, [])
  ∨ main env = (MainResult.noInput, [])
  ∨ main env = (MainResult.authFailed,
      Event.authCall :: (get_authenticated_service env.auth).2)
  ∨ main env = (MainResult.createFailed,
      Event.authCall :: (get_authenticated_service env.auth).2
        ++ [Event.createCall]) := by
  unfold main
  by_cases hf : env.linksFileExists = true
  · rw [if_pos hf]
    by_cases he : ((readPhase env.fileLines).1).isEmpty = true
    · simp [he]
    · rcases hg : get_authenticated_service env.auth with ⟨out, aevs⟩
      cases out with
      | ok c => simp [he, hg, h]
      | configMissing => simp [he, hg]
      | flowAborted => simp [he, hg]
  · simp [hf]

/-- C5: `create_playlist` returns the new playlist identifier on success
and on an HTTP error reports the status and body and returns no id; `main`
treats that as fatal — the run never reaches an item insertion after a
failed playlist creation, and never reports a finished playlist. -/
theorem c5_create_playlist_fatal (pid : List Char) (s : Nat) (b : List Char)
    (env : Env) (h : env.createResult = CreateResult.httpError s b) :
    create_playlist (CreateResult.ok pid) = (some pid, none)
  ∧ create_playlist (CreateResult.httpError s b) = (none, some (s, b))
  ∧ (∀ v, Event.insertCall v ∉ (main env).2)
  ∧ (∀ a t p, (main env).1 ≠ MainResult.finished a t p) := by
  have hc : (create_playlist env.createResult).1 = none := by rw [h]; rfl
  have hm := main_cases_of_createFailure hc
  refine ⟨rfl, rfl, ?_, ?_⟩
  · intro v
    rcases hm with hm | hm | hm | hm <;> simp [hm] <;>
      exact fun hmem => gas_no_insert env.auth v hmem
  · intro a t p
    rcases hm with hm | hm | hm | hm <;> simp [hm]

/-- Witness for C5: a quota failure on playlist creation aborts the run
with no insertions even though a parsable link is present. -/
theorem c5_create_playlist_fatal_witness :
    create_playlist (CreateResult.httpError 403 "quota".data)
      = (none, some (403, "quota".data))
  ∧ (∀ v, Event.insertCall v ∉
      (main ⟨true, ["https://youtu.be/dQw4w9WgXcQ".data],
        ⟨LoadOutcome.goodFile ⟨true, false, false⟩, none, true, none⟩,
        CreateResult.httpError 403 "quota".data,
        fun _ => InsertOutcome.success⟩).2) := by
  have h := c5_create_playlist_fatal "PL".data 403 "quota".data
    ⟨true, ["https://youtu.be/dQw4w9WgXcQ".data],
      ⟨LoadOutcome.goodFile ⟨true, false, false⟩, none, true, none⟩,
      CreateResult.httpError 403 "quota".data,
      fun _ => InsertOutcome.success⟩ rfl
  exact ⟨h.2.1, h.2.2.1⟩

end PlaylistGen

namespace PlaylistGen

/-- C7: with no usable credential (nothing loaded, or loaded but invalid
and not refreshable) the interactive flow is what runs: it stops with the
config-missing message — without running the flow — when the client-secret
file is absent, aborts when the flow raises, and otherwise succeeds and
saves. An invalid expired credential with a refresh token is refreshed
first (the refresh is the first external step), a successful refresh is
saved with no flow run, a failed refresh falls back to exactly one
interactive flow attempt; no path attempts more than one refresh or more
than one flow; and every success that did not start from an already-valid
credential ends with a save. -/
theorem c7_auth_state_machine (env : AuthEnv) :
    ((get_authenticated_service env).2.count Event.refreshAttempt ≤ 1
      ∧ (get_authenticated_service env).2.count Event.flowRun ≤ 1)
  ∧ (noUsableCred env.loadOutcome = true →
       (env.clientSecretsExists = false →
          get_authenticated_service env = (AuthOutcome.configMissing, []))
     ∧ (env.clientSecretsExists = true → env.flowResult = none →
          get_authenticated_service env
            = (AuthOutcome.flowAborted, [Event.flowRun]))
     ∧ (∀ c, env.clientSecretsExists = true → env.flowResult = some c →
          get_authenticated_service env
            = (AuthOutcome.ok c, [Event.flowRun, Event.saveCreds])))
  ∧ (refreshableCred env.loadOutcome = true →
       ((get_authenticated_service env).2.head? = some Event.refreshAttempt)
     ∧ (∀ c2, env.refreshResult = some c2 → c2.valid = true →
          get_authenticated_service env
            = (AuthOutcome.ok c2, [Event.refreshAttempt, Event.saveCreds]))
     ∧ (env.refreshResult = none → env.clientSecretsExists = true →
          (get_authenticated_service env).2.count Event.flowRun = 1)
     ∧ (env.refreshResult = none → env.clientSecretsExists = false →
          get_authenticated_service env
            = (AuthOutcome.configMissing, [Event.refreshAttempt])))
  ∧ (∀ c, (get_authenticated_service env).1 = AuthOutcome.ok c →
        truthyValid (loadedCreds env.loadOutcome) = false →
        (get_authenticated_service env).2.getLast? = some Event.saveCreds) := by
  obtain ⟨lo, rr, cse, fr⟩ := env
  cases lo with
  | fileAbsent =>
    cases cse <;> cases fr <;>
      simp [get_authenticated_service, loadPhase, finishAuth, runFlow,
        noUsableCred, refreshableCred, loadedCreds, truthyValid]
  | malformed =>
    cases cse <;> cases fr <;>
      simp [get_authenticated_service, loadPhase, finishAuth, runFlow,
        noUsableCred, refreshableCred, loadedCreds, truthyValid]
  | goodFile c =>
    obtain ⟨v, ex, rt⟩ := c
    cases v
    · cases ex <;> cases rt <;> cases cse <;> cases fr <;>
        rcases rr with _ | ⟨⟨v2, e2, t2⟩⟩ <;> (try cases v2) <;>
        simp [get_authenticated_service, loadPhase, refreshStep, finishAuth,
          runFlow, noUsableCred, refreshableCred, loadedCreds, truthyValid]
    · simp [get_authenticated_service, loadPhase, noUsableCred,
        refreshableCred, loadedCreds, truthyValid]

/-- Witness for C7: an expired, refreshable credential whose refresh fails
leads to exactly one interactive flow attempt. -/
theorem c7_auth_state_machine_witness :
    (get_authenticated_service
        ⟨LoadOutcome.goodFile ⟨false, true, true⟩, none, true,
          some ⟨true, false, true⟩⟩).2.count Event.flowRun = 1 := by
  have h := c7_auth_state_machine
    ⟨LoadOutcome.goodFile ⟨false, true, true⟩, none, true,
      some ⟨true, false, true⟩⟩
  exact (h.2.2.1 (by decide)).2.2.1 rfl rfl

end PlaylistGen

namespace PlaylistGen

/-! ## Credential store round trip (C8) and load failures (C9) -/

lemma strVals_map (ss : List (List Char)) :
    strVals (ss.map JVal.jstr) = some ss := by
  induction ss with
  | nil => rfl
  | cons s rest ih => simp [strVals, ih]

/-- C8: a credential record serialized by the store and reloaded from the
same file decodes to the identical record, and under the same clock any
reloaded record is still judged valid whenever the saved one was. -/
theorem c8_credential_round_trip (c : StoredCredential) (now : Nat)
    (h : isValidCred c now = true) :
    credFromJson (credToJson c) = some c
  ∧ ∀ c', credFromJson (credToJson c) = some c' →
      isValidCred c' now = true := by
  have hrt : credFromJson (credToJson c) = some c := by
    obtain ⟨t, rt, ex, sc⟩ := c
    cases rt <;> cases ex <;>
      simp [credToJson, credFromJson, jlookup, strVals_map]
  refine ⟨hrt, fun c' hc' => ?_⟩
  rw [hrt, Option.some.injEq] at hc'
  rw [← hc']
  exact h

/-- Witness for C8 at a concrete credential and clock. -/
theorem c8_credential_round_trip_witness :
    credFromJson (credToJson
      ⟨"tok".data, some "ref".data, some 100, SCOPES⟩)
    = some ⟨"tok".data, some "ref".data, some 100, SCOPES⟩ :=
  (c8_credential_round_trip ⟨"tok".data, some "ref".data, some 100, SCOPES⟩
    5 (by decide)).1

/-- C9: the load phase yields no credentials both when the file is absent
and when its contents are malformed, flagging (logging) only the malformed
case; a malformed file changes nothing else — the rest of the run is the
same as with no file at all, proceeding to re-authentication, and with the
client secrets present and a working flow it still ends in success. -/
theorem c9_load_absent_or_malformed (rr : Option Creds) (cse : Bool)
    (fr : Option Creds) :
    loadPhase LoadOutcome.fileAbsent = (none, false)
  ∧ loadPhase LoadOutcome.malformed = (none, true)
  ∧ get_authenticated_service ⟨LoadOutcome.malformed, rr, cse, fr⟩
      = get_authenticated_service ⟨LoadOutcome.fileAbsent, rr, cse, fr⟩
  ∧ (∀ c, (get_authenticated_service
        ⟨LoadOutcome.malformed, rr, true, some c⟩).1 = AuthOutcome.ok c) :=
  ⟨rfl, rfl, rfl, fun _ => rfl⟩

end PlaylistGen

namespace PlaylistGen

/-! ## Classification of insertion failures (C6) -/

lemma matchLit_isSome_iff (pat s : List Char) :
    (matchLit pat s).isSome = true ↔ pat <+: s := by
  induction pat generalizing s with
  | nil => simp [matchLit]
  | cons a as ih =>
    cases s with
    | nil => simp [matchLit]
    | cons c cs =>
      simp only [matchLit]
      by_cases hc : c = a
      · simp [hc, ih, List.cons_prefix_cons]
      · simp only [hc, if_false, List.cons_prefix_cons]
        simp only [Option.isSome_none, Bool.false_eq_true, false_iff]
        exact fun hand => hc hand.1.symm

lemma containsSub_iff (pat s : List Char) :
    containsSub pat s = true ↔ pat <:+: s := by
  induction s with
  | nil => cases pat <;> simp [containsSub]
  | cons c cs ih =>
    simp [containsSub, matchLit_isSome_iff, ih, List.infix_cons_iff]

/-- C6 counterexample: a 400 response whose raw body is `DUPLICATE` does
not contain the substring `duplicate`, yet the code classifies it as a
duplicate (not as a plain HTTP error) because it lowercases the body
before the substring test. -/
theorem c6_counterexample :
    (add_video_to_playlist (InsertOutcome.httpErr 400 "DUPLICATE".data)).2
      = AddClass.duplicate
  ∧ ¬ ("duplicate".data <:+: "DUPLICATE".data)
  ∧ AddClass.duplicate ≠ AddClass.apiError := by
  refine ⟨by decide, fun hinf => ?_, by decide⟩
  have hc : containsSub "duplicate".data "DUPLICATE".data = false := by decide
  rw [(containsSub_iff "duplicate".data "DUPLICATE".data).mpr hinf] at hc
  exact absurd hc (by simp)

/-- C6 amended: for every HTTP error response to an item insertion, status
404 is classified NotFound; status 400 whose response body, lowercased,
contains the substring `duplicate` is classified Duplicate; every other
error response is classified ApiError — the distinguishing signal being
only the status code plus the case-insensitive substring match. -/
theorem c6_amended_classification (status : Nat) (content : List Char) :
    ((add_video_to_playlist (InsertOutcome.httpErr status content)).2
        = AddClass.notFound ↔ status = 404)
  ∧ ((add_video_to_playlist (InsertOutcome.httpErr status content)).2
        = AddClass.duplicate
      ↔ status = 400 ∧ "duplicate".data <:+: content.map Char.toLower)
  ∧ ((add_video_to_playlist (InsertOutcome.httpErr status content)).2
        = AddClass.apiError
      ↔ status ≠ 404
        ∧ ¬(status = 400 ∧ "duplicate".data <:+: content.map Char.toLower)) := by
  by_cases h404 : status = 404
  · subst h404
    simp [add_video_to_playlist]
  · by_cases h400 : status = 400
    · subst h400
      by_cases hdup :
          containsSub "duplicate".data (content.map Char.toLower) = true
      · simp [add_video_to_playlist, hdup,
          (containsSub_iff _ _).mp hdup]
      · rw [Bool.not_eq_true] at hdup
        have hni : ¬ ("duplicate".data <:+: content.map Char.toLower) :=
          fun hinf => by
            rw [(containsSub_iff _ _).mpr hinf] at hdup
            exact absurd hdup (by simp)
        simp [add_video_to_playlist, hdup, hni]
    · simp [add_video_to_playlist, h404, h400]

end PlaylistGen
